import Mathlib

/-!
Verification development for the Sui blockchain AI-agent backend
(`routers/chat.py`): a shallow embedding of the dispatcher branches of
`chat_endpoint`, of `execute_transaction`, and of the encrypted contact
vault (`save_contact` / `list_contacts`), together with theorems settling
the frozen claims about this code.

External collaborators (OpenAI intent classifier, Sui RPC gateway, wallet
signer, Walrus blob store, Seal encryption) are not part of the embedded
code: they appear as parameters of the models, and calls to them are
recorded as explicit call traces so that claims about which external calls
happen can be stated.

Python's `int(float(amount_str) * (10 ** decimals))` amount conversion is
embedded exactly: decimal strings become `DecimalStr` values, `float`
parsing and multiplication are modelled by round-to-nearest-even IEEE-754
binary64 arithmetic over dyadic rationals (exact for all inputs in the
normal range, which covers every token amount), and `int()` truncation is
integer division.
-/

set_option maxRecDepth 400000

namespace ChatRouter

/-! ### Exact model of Python binary64 float arithmetic (normal range) -/

/-- Number of binary digits of a natural number (`0` for `0`).
Fuel-based structural recursion so the kernel can evaluate it. -/
def bitLenAux : Nat → Nat → Nat
  | 0, _ => 0
  | fuel+1, n => if n = 0 then 0 else bitLenAux fuel (n / 2) + 1

/-- Number of binary digits of `n`. -/
def bitLen (n : Nat) : Nat := bitLenAux n n

/-- Round the fraction `N / D` to the nearest integer, ties to even
(the IEEE-754 default rounding used by CPython floats). -/
def roundHalfEvenDiv (N D : Nat) : Nat :=
  let q := N / D
  let r := N % D
  if 2 * r < D then q else if D < 2 * r then q + 1 else if q % 2 = 0 then q else q + 1

/-- A nonnegative dyadic rational `m * 2 ^ e`: the exact value of a
binary64 float in the normal range (sign is always `+` for token amounts). -/
structure Dyadic where
  m : Nat
  e : Int
deriving DecidableEq

/-- Scale the fraction `n / d` by `2 ^ k`, keeping numerator and
denominator natural. -/
def scalePow2 (n d : Nat) (k : Int) : Nat × Nat :=
  if 0 ≤ k then (n * 2 ^ k.toNat, d) else (n, d * 2 ^ (-k).toNat)

/-- Round the positive fraction `n / d` to the nearest binary64 value
(53 significant bits, ties to even): the semantics of CPython
`float(decimal_string)` in the normal range. -/
def roundDoubleFrac (n d : Nat) : Dyadic :=
  if n = 0 then ⟨0, 0⟩ else
    let k0 : Int := 52 - (bitLen n : Int) + (bitLen d : Int)
    let p0 := scalePow2 n d k0
    let k : Int := if p0.1 < 2 ^ 52 * p0.2 then k0 + 1 else k0
    let p := scalePow2 n d k
    ⟨roundHalfEvenDiv p.1 p.2, -k⟩

/-- Round a dyadic value to 53 significant bits, ties to even: the
rounding step of a CPython float multiplication applied to the exact
product. -/
def roundDyadic (x : Dyadic) : Dyadic :=
  let L := bitLen x.m
  if L ≤ 53 then x else
    let s := L - 53
    ⟨roundHalfEvenDiv x.m (2 ^ s), x.e + (s : Int)⟩

/-- Exact product of two dyadic values (to be rounded by `roundDyadic`). -/
def Dyadic.mul (x y : Dyadic) : Dyadic := ⟨x.m * y.m, x.e + y.e⟩

/-- CPython `int()` truncation of a nonnegative dyadic float value. -/
def Dyadic.truncToNat (x : Dyadic) : Nat :=
  if 0 ≤ x.e then x.m * 2 ^ x.e.toNat else x.m / 2 ^ (-x.e).toNat

/-- A nonnegative decimal amount string: the value `mantissa / 10 ^ exp`
(so `exp` is its number of fractional digits), e.g. `"2.01"` is
`⟨201, 2⟩`. -/
structure DecimalStr where
  mantissa : Nat
  exp : Nat
deriving DecidableEq

/-- `chat.py` amount normalization
`str(int(float(amount_str) * (10 ** decimals)))` (lines 161, 222, 316),
modelled exactly: parse the decimal string to the nearest binary64 value,
convert the integer `10 ** decimals` to binary64, multiply with binary64
rounding, truncate with `int()`.  The result models the integer value of
the produced smallest-unit string. -/
def pyAmountInSmallest (a : DecimalStr) (d : Nat) : Nat :=
  (roundDyadic ((roundDoubleFrac a.mantissa (10 ^ a.exp)).mul (roundDoubleFrac (10 ^ d) 1))).truncToNat

/-- The spec's notion of the conversion (claim C1): `a` scaled by `10 ^ d`
with truncation beyond `d` digits.  States the spec's words, for
comparison with `pyAmountInSmallest`; exact whenever `a.exp ≤ d`. -/
def specExactSmallest (a : DecimalStr) (d : Nat) : Nat :=
  a.mantissa * 10 ^ d / 10 ^ a.exp

/-! ### Data model -/

/-- Token types from `models.schemas.TokenType`.
Modelled from the spec: the native token (SUI, 9 decimals) and the stable
token (USDC, 6 decimals); `models/schemas.py` is not under `src/`. -/
inductive TokenType
  | SUI
  | USDC
deriving DecidableEq

/-- The three risk levels of a dry-run summary. -/
inductive RiskLevel
  | low
  | medium
  | high
deriving DecidableEq

/-- Intent actions from `models.schemas.IntentAction`, as dispatched on in
`chat_endpoint`. -/
inductive IntentAction
  | ambiguous
  | getBalance
  | getStakeInfo
  | stakeToken
  | unstakeToken
  | transferToken
  | createAddressBook
  | saveContactIntent
  | listContactsIntent
  | unknown
deriving DecidableEq

/-- A dry-run summary as returned by
`openai_service.generate_dry_run_summary`. -/
structure DryRunSummary where
  actionDescription : String
  riskLevel : RiskLevel
  estimatedGasFee : Nat
deriving DecidableEq

/-- Metadata dict returned by `sui_service.build_create_address_book_tx`. -/
structure CreateBookTx where
  transactionType : String
  target : String
  arguments : List String
  typeArguments : List String
deriving DecidableEq

/-- The `transaction_data` payload a `ChatResponse` may carry, keyed by
action (amounts are the integer values of the smallest-unit strings). -/
inductive TransactionData
  | stakeTok (amount : Nat) (token : TokenType)
  | unstakeTok (amount : Nat) (token : TokenType)
  | transferTok (recipient : String) (amount : Nat) (token : TokenType)
  | createBook (tx : CreateBookTx)
deriving DecidableEq

/-- The fields of a `ChatResponse` the claims are about.  The free-text
`message` field is not modelled: no claim constrains its content, and the
`intent` field is reduced to its `action`. -/
structure ChatResponse where
  action : IntentAction
  dryRun : Option DryRunSummary
  readyToExecute : Bool
  transactionData : Option TransactionData
deriving DecidableEq

/-! ### Dispatcher branches of `chat_endpoint` -/

/-- Results of the external calls a dispatcher branch awaits, as one
record: balance query, stake query, gas estimate, dry-run generation
(a function of the arguments the code passes to
`generate_dry_run_summary`), address-book existence check, and the
create-address-book transaction builder. -/
structure ChatEnv where
  balance : Nat
  stakedAmount : Nat
  estimatedGas : Nat
  genDryRun : String → String → Nat → TokenType → Nat → Nat → DryRunSummary
  hasAddressBook : Bool
  createBookTx : String → CreateBookTx

/-- `chat.py` line 160: in the STAKE_TOKEN branch `decimals = 9`
unconditionally, whatever the token. -/
def stakeDecimals (_token : TokenType) : Nat := 9

/-- `chat.py` line 221: in the UNSTAKE_TOKEN branch `decimals = 9`
unconditionally, whatever the token. -/
def unstakeDecimals (_token : TokenType) : Nat := 9

/-- `chat.py` line 315: in the TRANSFER_TOKEN branch
`decimals = 9 if token_type == TokenType.SUI else 6`. -/
def transferDecimals (token : TokenType) : Nat :=
  if token = TokenType.SUI then 9 else 6

/-- The spec's fixed per-token decimal-exponent table (claims C1, C4):
exponent 9 for the native token, 6 for the stable token.  States the
spec's words, for comparison with the per-branch exponents above. -/
def specTokenDecimals (token : TokenType) : Nat :=
  if token = TokenType.SUI then 9 else 6

/-- STAKE_TOKEN branch of `chat_endpoint` (`chat.py` lines 139-192),
after the user-address check: convert the amount, generate the dry run,
and gate readiness on `risk_level != "high"`. -/
def chatStakeBranch (env : ChatEnv) (amount : DecimalStr) (token : TokenType) : ChatResponse :=
  let amountInSmallest := pyAmountInSmallest amount (stakeDecimals token)
  let dryRun := env.genDryRun ("stake_token") ("Staking Pool") amountInSmallest token
    env.balance env.estimatedGas
  { action := IntentAction.stakeToken
    dryRun := some dryRun
    readyToExecute := if dryRun.riskLevel ≠ RiskLevel.high then true else false
    transactionData := some (TransactionData.stakeTok amountInSmallest token) }

/-- UNSTAKE_TOKEN branch of `chat_endpoint` (`chat.py` lines 194-263),
after the user-address check: if the converted amount exceeds the staked
amount, return an informational failure with no dry run and no payload;
otherwise build the dry run and return `ready_to_execute=True`
unconditionally. -/
def chatUnstakeBranch (env : ChatEnv) (userAddress : String) (amount : DecimalStr)
    (token : TokenType) : ChatResponse :=
  let amountInSmallest := pyAmountInSmallest amount (unstakeDecimals token)
  if amountInSmallest > env.stakedAmount then
    { action := IntentAction.unstakeToken
      dryRun := none
      readyToExecute := false
      transactionData := none }
  else
    let dryRun := env.genDryRun ("unstake_token") userAddress amountInSmallest token
      env.balance env.estimatedGas
    { action := IntentAction.unstakeToken
      dryRun := some dryRun
      readyToExecute := true
      transactionData := some (TransactionData.unstakeTok amountInSmallest token) }

/-- TRANSFER_TOKEN branch of `chat_endpoint` (`chat.py` lines 265-348),
after the user-address check: contact names short-circuit (no address
book, or the unimplemented on-chain resolution) with no dry run;
otherwise convert the amount with the per-token exponent, build the dry
run, and gate readiness on `risk_level != "high"`. -/
def chatTransferBranch (env : ChatEnv) (_userAddress recipient : String)
    (isContactName : Bool) (amount : DecimalStr) (token : TokenType) : ChatResponse :=
  if isContactName then
    if env.hasAddressBook = false then
      { action := IntentAction.transferToken
        dryRun := none
        readyToExecute := false
        transactionData := none }
    else
      { action := IntentAction.transferToken
        dryRun := none
        readyToExecute := false
        transactionData := none }
  else
    let amountInSmallest := pyAmountInSmallest amount (transferDecimals token)
    let dryRun := env.genDryRun ("transfer_token") recipient amountInSmallest token
      env.balance env.estimatedGas
    { action := IntentAction.transferToken
      dryRun := some dryRun
      readyToExecute := if dryRun.riskLevel ≠ RiskLevel.high then true else false
      transactionData := some (TransactionData.transferTok recipient amountInSmallest token) }

/-- CREATE_ADDRESS_BOOK branch of `chat_endpoint` (`chat.py` lines
354-391), after the user-address check.  The second component counts the
calls to `sui_service.build_create_address_book_tx` the branch issues. -/
def chatCreateAddressBookBranch (env : ChatEnv) (userAddress : String) :
    ChatResponse × Nat :=
  if env.hasAddressBook then
    ({ action := IntentAction.createAddressBook
       dryRun := none
       readyToExecute := false
       transactionData := none }, 0)
  else
    let txResult := env.createBookTx userAddress
    ({ action := IntentAction.createAddressBook
       dryRun := none
       readyToExecute := true
       transactionData := some (TransactionData.createBook txResult) }, 1)

/-! ### The `/execute` endpoint -/

/-- Hex digit character for a value below 16, lowercase, as produced by
CPython `bytes.hex()`. -/
def hexDigit (n : Nat) : Char :=
  if n < 10 then Char.ofNat (48 + n) else Char.ofNat (87 + n)

/-- Two-character lowercase hex encoding of one byte. -/
def byteHex (b : Nat) : String :=
  String.mk [hexDigit (b / 16), hexDigit (b % 16)]

/-- CPython `bytes.hex()` of a byte sequence. -/
def bytesHex (bs : List Nat) : String :=
  String.join (bs.map byteHex)

/-- The `effects` mapping of a `TransactionResult` in the client-signing
path. -/
structure TxEffects where
  status : String
  transactionBytes : String
  message : String
deriving DecidableEq

/-- `models.schemas.TransactionResult`: success flag, optional digest,
optional effects, optional error. -/
structure TransactionResult where
  success : Bool
  transactionDigest : Option String
  effects : Option TxEffects
  error : Option String
deriving DecidableEq

/-- An `/execute` request body: `user_address` plus the fields read from
`transaction_data` with `.get` (absent keys are `none`).  The string-enum
coercion `TokenType(token)` is elided: the token field carries the parsed
token, defaulting to SUI like `tx_data.get("token", "SUI")`. -/
structure ExecuteTxRequest where
  userAddress : String
  action : Option String
  amount : Option String
  recipient : Option String
  token : Option TokenType
  privateKey : Option String

/-- CPython truthiness of an optional string (`if x:` / `if not x:`):
false when the key is absent or the string is empty. -/
def pyTruthy : Option String → Bool
  | none => false
  | some s => if s = "" then false else true

/-- One external call issued by `execute_transaction`: wallet-signer
construction, a gateway transaction build (with the sender it was given),
wallet execution of built bytes, or the wallet's combined
build-and-execute transfer. -/
inductive ExtCall
  | walletCtor (privateKey : String)
  | buildStake (sender amount : String) (token : TokenType)
  | buildUnstake (sender amount : String) (token : TokenType)
  | buildTransfer (sender recipient amount : String) (token : TokenType)
  | walletExec (txBytes : List Nat)
  | walletBuildAndTransfer (recipient amount : String) (token : TokenType)
deriving DecidableEq

/-- Whether an external call touches the wallet signer (construction,
signing, or submission) rather than only building bytes. -/
def ExtCall.isWalletCall : ExtCall → Bool
  | ExtCall.walletCtor _ => true
  | ExtCall.walletExec _ => true
  | ExtCall.walletBuildAndTransfer _ _ _ => true
  | _ => false

/-- Behaviour of the external collaborators of `execute_transaction`:
whether `WalletService(private_key)` construction succeeds, the address it
derives, the three gateway transaction builders (which may raise
`ValueError`, modelled as `Except.error`), and the wallet execution
results. -/
structure ExecEnv where
  walletCtorOk : String → Bool
  walletAddress : String → String
  buildStakeTx : String → String → TokenType → Except String (List Nat)
  buildUnstakeTx : String → String → TokenType → Except String (List Nat)
  buildTransferTx : String → String → String → TokenType → Except String (List Nat)
  walletExecResult : String → List Nat → TransactionResult
  walletTransferResult : String → String → String → TokenType → TransactionResult

/-- `execute_transaction` (`chat.py` lines 515-799): dispatch on the
`action` string; validate required fields; then either the server-signed
path (wallet from the private key, build with the wallet's derived
address as sender, execute) or the client-signing path (build with
`request.user_address` as sender, hex-encode, return
`ready_for_signing`).  Returns the HTTP outcome (error = status code) and
the ordered trace of external calls issued. -/
def execute_transaction (env : ExecEnv) (req : ExecuteTxRequest) :
    Except Nat TransactionResult × List ExtCall :=
  let tok := req.token.getD TokenType.SUI
  if req.action = some ("stake_token") then
    if pyTruthy req.amount = false then (Except.error 400, [])
    else
      let amount := req.amount.getD ""
      if pyTruthy req.privateKey then
        let k := req.privateKey.getD ""
        if env.walletCtorOk k = false then (Except.error 400, [ExtCall.walletCtor k])
        else
          let sender := env.walletAddress k
          match env.buildStakeTx sender amount tok with
          | Except.error _ =>
              (Except.error 400, [ExtCall.walletCtor k, ExtCall.buildStake sender amount tok])
          | Except.ok bs =>
              let r := env.walletExecResult k bs
              (if r.success then Except.ok r else Except.error 500,
               [ExtCall.walletCtor k, ExtCall.buildStake sender amount tok, ExtCall.walletExec bs])
      else
        match env.buildStakeTx req.userAddress amount tok with
        | Except.ok bs =>
            (Except.ok
              { success := true
                transactionDigest := none
                effects := some
                  { status := ("ready_for_signing")
                    transactionBytes := bytesHex bs
                    message := ("Stake transaction built. Sign with your wallet to execute.") }
                error := none },
             [ExtCall.buildStake req.userAddress amount tok])
        | Except.error _ =>
            (Except.error 400, [ExtCall.buildStake req.userAddress amount tok])
  else if req.action = some ("unstake_token") then
    if pyTruthy req.amount = false then (Except.error 400, [])
    else
      let amount := req.amount.getD ""
      if pyTruthy req.privateKey then
        let k := req.privateKey.getD ""
        if env.walletCtorOk k = false then (Except.error 400, [ExtCall.walletCtor k])
        else
          let sender := env.walletAddress k
          match env.buildUnstakeTx sender amount tok with
          | Except.error _ =>
              (Except.error 400, [ExtCall.walletCtor k, ExtCall.buildUnstake sender amount tok])
          | Except.ok bs =>
              let r := env.walletExecResult k bs
              (if r.success then Except.ok r else Except.error 500,
               [ExtCall.walletCtor k, ExtCall.buildUnstake sender amount tok, ExtCall.walletExec bs])
      else
        match env.buildUnstakeTx req.userAddress amount tok with
        | Except.ok bs =>
            (Except.ok
              { success := true
                transactionDigest := none
                effects := some
                  { status := ("ready_for_signing")
                    transactionBytes := bytesHex bs
                    message := ("Unstake transaction built. Sign with your wallet to execute.") }
                error := none },
             [ExtCall.buildUnstake req.userAddress amount tok])
        | Except.error _ =>
            (Except.error 400, [ExtCall.buildUnstake req.userAddress amount tok])
  else if req.action = some ("transfer_token") then
    if pyTruthy req.recipient = false then (Except.error 400, [])
    else if pyTruthy req.amount = false then (Except.error 400, [])
    else
      let recipient := req.recipient.getD ""
      let amount := req.amount.getD ""
      if pyTruthy req.privateKey then
        let k := req.privateKey.getD ""
        if env.walletCtorOk k = false then (Except.error 400, [ExtCall.walletCtor k])
        else
          let r := env.walletTransferResult k recipient amount tok
          (if r.success then Except.ok r else Except.error 500,
           [ExtCall.walletCtor k, ExtCall.walletBuildAndTransfer recipient amount tok])
      else
        match env.buildTransferTx req.userAddress recipient amount tok with
        | Except.ok bs =>
            (Except.ok
              { success := true
                transactionDigest := none
                effects := some
                  { status := ("ready_for_signing")
                    transactionBytes := bytesHex bs
                    message := ("Transaction built successfully. Sign with your wallet to execute.") }
                error := none },
             [ExtCall.buildTransfer req.userAddress recipient amount tok])
        | Except.error _ =>
            (Except.error 400, [ExtCall.buildTransfer req.userAddress recipient amount tok])
  else
    (Except.error 400, [])

/-! ### The contact vault: `/contacts/save` and `/contacts/list` -/

/-- One decrypted contact record (`name`, `address`, `notes`). -/
structure ContactRecord where
  name : String
  address : String
  notes : String
deriving DecidableEq

/-- The process-wide vault state: the in-memory `contact_storage` mapping
(user address to blob id) plus the blob store contents.
Modelled from the spec: the Walrus blob store (not under `src/`) is a
content-addressed store of opaque blobs; here blob ids are indices into
the list of uploaded blobs and `upload` appends, so every upload yields a
fresh id and old blobs stay unreferenced but undeleted, as the spec
describes.  `β` is the type of encrypted blobs. -/
structure VaultState (β : Type) where
  storage : String → Option Nat
  blobs : List β

/-- Outcome of one `save_contact` request: the HTTP outcome (error =
status code; success = new state and stored blob id) and how many times
the endpoint called the blob store (`download_blob` / `upload_blob`) and
the encryption service (`decrypt_bulk_contacts` / `encrypt_bulk_contacts`). -/
structure SaveOutcome (β : Type) where
  result : Except Nat (VaultState β × Nat)
  downloadCalls : Nat
  decryptCalls : Nat
  encryptCalls : Nat
  uploadCalls : Nat

/-- The `try:` body of `save_contact` (`chat.py` lines 818-867): reject
with a 400 `HTTPException` when name or address is falsy; otherwise merge
the new record into the user's existing decrypted set (or start a
singleton set), re-encrypt, upload, and repoint `contact_storage`.
Modelled from the spec: `encrypt_bulk_contacts` / `decrypt_bulk_contacts`
of `seal_service` (not under `src/`) appear as the parameters `enc` and
`dec`. -/
def saveContactInner {β : Type} (enc : List ContactRecord → β) (dec : β → List ContactRecord)
    (st : VaultState β) (userAddress : String) (r : ContactRecord) : SaveOutcome β :=
  if r.name = "" ∨ r.address = "" then
    ⟨Except.error 400, 0, 0, 0, 0⟩
  else
    match st.storage userAddress with
    | some blobId =>
        let existing := (match st.blobs[blobId]? with | some b => dec b | none => [])
        let updated := existing ++ [r]
        let newId := st.blobs.length
        ⟨Except.ok
          ({ storage := fun x => if x = userAddress then some newId else st.storage x
             blobs := st.blobs ++ [enc updated] }, newId), 1, 1, 1, 1⟩
    | none =>
        let newId := st.blobs.length
        ⟨Except.ok
          ({ storage := fun x => if x = userAddress then some newId else st.storage x
             blobs := st.blobs ++ [enc [r]] }, newId), 0, 0, 1, 1⟩

/-- `save_contact` (`chat.py` lines 802-873).  The surrounding
`except Exception` has no preceding `except HTTPException: raise`, so
every exception raised in the body — including the endpoint's own 400
`HTTPException` — is caught and re-raised as a 500 `HTTPException`. -/
def save_contact {β : Type} (enc : List ContactRecord → β) (dec : β → List ContactRecord)
    (st : VaultState β) (userAddress : String) (r : ContactRecord) : SaveOutcome β :=
  let o := saveContactInner enc dec st userAddress r
  match o.result with
  | Except.error _ => { o with result := Except.error 500 }
  | Except.ok _ => o

/-- `list_contacts` (`chat.py` lines 876-905): empty list when the user
has no stored blob id, otherwise download and decrypt the stored blob. -/
def list_contacts {β : Type} (dec : β → List ContactRecord) (st : VaultState β)
    (userAddress : String) : List ContactRecord :=
  match st.storage userAddress with
  | none => []
  | some blobId => match st.blobs[blobId]? with | some b => dec b | none => []

/-! ### Concrete fixtures used by witnesses and counterexamples -/

/-- A chat environment whose staked amount (4 SUI in MIST) is below the
5-SUI amounts used in witnesses; dry runs come back with low risk. -/
def lowStakeEnv : ChatEnv :=
  { balance := 10000000000
    stakedAmount := 4000000000
    estimatedGas := 1000000
    genDryRun := fun _ _ _ _ _ _ =>
      { actionDescription := ("transfer preview"), riskLevel := RiskLevel.low
        estimatedGasFee := 1000000 }
    hasAddressBook := false
    createBookTx := fun s =>
      { transactionType := ("moveCall"), target := ("pkg::address_book::create")
        arguments := [s], typeArguments := [] } }

/-- Same environment with 6 SUI staked, so a 5-SUI unstake passes the
stake check. -/
def highStakeEnv : ChatEnv :=
  { lowStakeEnv with stakedAmount := 6000000000 }

/-- An execute-endpoint environment with deterministic collaborators:
builders return the bytes `0xab 0xcd`, the wallet derives a fixed
address, and executions succeed. -/
def sampleExecEnv : ExecEnv :=
  { walletCtorOk := fun _ => true
    walletAddress := fun _ => ("0xderived")
    buildStakeTx := fun _ _ _ => Except.ok [171, 205]
    buildUnstakeTx := fun _ _ _ => Except.ok [171, 205]
    buildTransferTx := fun _ _ _ _ => Except.ok [171, 205]
    walletExecResult := fun _ _ =>
      { success := true, transactionDigest := some ("0xdigest"), effects := none, error := none }
    walletTransferResult := fun _ _ _ _ =>
      { success := true, transactionDigest := some ("0xdigest"), effects := none, error := none } }

/-- A client-signing stake request: no private key supplied. -/
def clientStakeReq : ExecuteTxRequest :=
  { userAddress := ("0xme"), action := some ("stake_token"), amount := some ("5000000000")
    recipient := none, token := none, privateKey := none }

/-- A server-signed stake request: the same stake with a private key. -/
def serverStakeReq : ExecuteTxRequest :=
  { clientStakeReq with privateKey := some ("key1") }

/-- A transfer request missing its recipient. -/
def missingRecipientReq : ExecuteTxRequest :=
  { userAddress := ("0xme"), action := some ("transfer_token"), amount := some ("5000000000")
    recipient := none, token := none, privateKey := none }

/-- The empty contact vault over unencrypted blobs (`enc = dec = id`). -/
def vaultEmpty : VaultState (List ContactRecord) :=
  { storage := fun _ => none, blobs := [] }

/-! ### Helper lemmas -/

/-- The readiness gate `True if dry_run.risk_level != "high" else False`
is false exactly at the high risk level. -/
theorem risk_gate_iff (d : DryRunSummary) :
    ((if d.riskLevel ≠ RiskLevel.high then true else false) = false ↔
      d.riskLevel = RiskLevel.high) := by
  cases h : d.riskLevel <;> simp [h]

/-- Looking an appended element up at the old length. -/
theorem getElem?_append_len {α : Type} (l : List α) (a : α) :
    (l ++ [a])[l.length]? = some a := by
  induction l with
  | nil => rfl
  | cons x xs ih =>
      simp only [List.cons_append, List.length_cons, List.getElem?_cons_succ]
      exact ih

/-! ### Claim theorems -/

/-- Claim C1 (code bug): the amount conversion
`int(float(amount_str) * (10 ** decimals))` is not exact for every decimal
string representable within the token's precision.  At amount `"2.01"`
with the SUI exponent 9 the code produces `2009999999` smallest units
while exact scaling gives `2010000000`, and the transfer dispatch embeds
the inexact value in its `transaction_data`. -/
theorem amount_conversion_float_rounding :
    pyAmountInSmallest ⟨201, 2⟩ 9 = 2009999999 ∧
    specExactSmallest ⟨201, 2⟩ 9 = 2010000000 ∧
    (chatTransferBranch lowStakeEnv ("0xme") ("0xabc") false ⟨201, 2⟩
        TokenType.SUI).transactionData =
      some (TransactionData.transferTok ("0xabc") 2009999999 TokenType.SUI) := by
  refine ⟨by decide, by decide, by decide⟩

/-- Claim C2: for every STAKE_TOKEN or TRANSFER_TOKEN dispatch that
reaches dry-run building, the response carries that dry run and
`ready_to_execute` is false exactly when its risk level is high — no
other risk level blocks execution. -/
theorem stake_transfer_risk_gate (env : ChatEnv) (a : DecimalStr) (t : TokenType)
    (u r : String) :
    (∃ d, (chatStakeBranch env a t).dryRun = some d ∧
      ((chatStakeBranch env a t).readyToExecute = false ↔ d.riskLevel = RiskLevel.high)) ∧
    (∃ d, (chatTransferBranch env u r false a t).dryRun = some d ∧
      ((chatTransferBranch env u r false a t).readyToExecute = false ↔
        d.riskLevel = RiskLevel.high)) :=
  ⟨⟨_, rfl, risk_gate_iff _⟩, ⟨_, rfl, risk_gate_iff _⟩⟩

/-- Claim C3: an UNSTAKE_TOKEN dispatch whose converted amount exceeds
the currently staked amount returns `ready_to_execute=false`,
`dry_run=None` and no transaction payload, whatever the balance;
otherwise `ready_to_execute` is true unconditionally. -/
theorem unstake_insufficient_stake_guard (env : ChatEnv) (u : String) (a : DecimalStr)
    (t : TokenType) :
    (pyAmountInSmallest a (unstakeDecimals t) > env.stakedAmount →
      chatUnstakeBranch env u a t =
        { action := IntentAction.unstakeToken, dryRun := none
          readyToExecute := false, transactionData := none }) ∧
    (pyAmountInSmallest a (unstakeDecimals t) ≤ env.stakedAmount →
      (chatUnstakeBranch env u a t).readyToExecute = true) := by
  constructor
  · intro h
    simp only [chatUnstakeBranch]
    split
    · rfl
    · next hc => exact absurd h hc
  · intro h
    simp only [chatUnstakeBranch]
    split
    · next hc => omega
    · rfl

/-- Witness for claim C3: unstaking 5 SUI blocks with 4 SUI staked and
goes through with 6 SUI staked. -/
theorem unstake_insufficient_stake_guard_witness :
    chatUnstakeBranch lowStakeEnv ("0xme") ⟨5, 0⟩ TokenType.SUI =
      { action := IntentAction.unstakeToken, dryRun := none
        readyToExecute := false, transactionData := none } ∧
    (chatUnstakeBranch highStakeEnv ("0xme") ⟨5, 0⟩ TokenType.SUI).readyToExecute = true :=
  ⟨(unstake_insufficient_stake_guard lowStakeEnv ("0xme") ⟨5, 0⟩ TokenType.SUI).1 (by decide),
   (unstake_insufficient_stake_guard highStakeEnv ("0xme") ⟨5, 0⟩ TokenType.SUI).2 (by decide)⟩

/-- Claim C4 counterexample: the stake and unstake branches do not use
the per-token decimal-exponent table — they hardcode exponent 9, so one
USDC is converted to `10 ^ 9` smallest units where the table's exponent 6
would give `10 ^ 6`. -/
theorem stake_decimals_counterexample :
    stakeDecimals TokenType.USDC = 9 ∧ unstakeDecimals TokenType.USDC = 9 ∧
    specTokenDecimals TokenType.USDC = 6 ∧
    (chatStakeBranch lowStakeEnv ⟨1, 0⟩ TokenType.USDC).transactionData =
      some (TransactionData.stakeTok 1000000000 TokenType.USDC) ∧
    (chatStakeBranch lowStakeEnv ⟨1, 0⟩ TokenType.USDC).transactionData ≠
      some (TransactionData.stakeTok (pyAmountInSmallest ⟨1, 0⟩
        (specTokenDecimals TokenType.USDC)) TokenType.USDC) := by
  refine ⟨rfl, rfl, rfl, by decide, by decide⟩

/-- Claim C4 as amended: only the transfer flow converts with the
per-token table (exponent 9 for SUI, 6 for the stable token); the stake
and unstake flows use exponent 9 for every token. -/
theorem decimals_amended :
    transferDecimals TokenType.SUI = specTokenDecimals TokenType.SUI ∧
    transferDecimals TokenType.USDC = specTokenDecimals TokenType.USDC ∧
    stakeDecimals TokenType.SUI = 9 ∧ stakeDecimals TokenType.USDC = 9 ∧
    unstakeDecimals TokenType.SUI = 9 ∧ unstakeDecimals TokenType.USDC = 9 := by
  decide

/-- Claim C5 (code bug): a `/contacts/save` request with a missing or
empty contact name is rejected without any storage or encryption call,
but with HTTP 500, not 400: the 400 `HTTPException` the endpoint raises
is caught by its own blanket `except Exception` handler and re-raised as
a 500. -/
theorem save_contact_missing_name_500 :
    (save_contact (β := List ContactRecord) id id vaultEmpty ("0xme")
        { name := "", address := ("0xabc"), notes := "" }).result = Except.error 500 ∧
    (save_contact (β := List ContactRecord) id id vaultEmpty ("0xme")
        { name := "", address := ("0xabc"), notes := "" }).downloadCalls = 0 ∧
    (save_contact (β := List ContactRecord) id id vaultEmpty ("0xme")
        { name := "", address := ("0xabc"), notes := "" }).decryptCalls = 0 ∧
    (save_contact (β := List ContactRecord) id id vaultEmpty ("0xme")
        { name := "", address := ("0xabc"), notes := "" }).encryptCalls = 0 ∧
    (save_contact (β := List ContactRecord) id id vaultEmpty ("0xme")
        { name := "", address := ("0xabc"), notes := "" }).uploadCalls = 0 :=
  ⟨rfl, rfl, rfl, rfl, rfl⟩

/-- Claim C8: when the existence check reports an address book, the
CREATE_ADDRESS_BOOK dispatch returns `ready_to_execute=false`, no
transaction payload, and issues no build call; when none exists, exactly
one build call is issued, `ready_to_execute=true`, and the response
carries the built payload. -/
theorem create_address_book_idempotent (env : ChatEnv) (u : String) :
    chatCreateAddressBookBranch { env with hasAddressBook := true } u =
      ({ action := IntentAction.createAddressBook, dryRun := none
         readyToExecute := false, transactionData := none }, 0) ∧
    (chatCreateAddressBookBranch { env with hasAddressBook := false } u).2 = 1 ∧
    (chatCreateAddressBookBranch { env with hasAddressBook := false } u).1.readyToExecute
      = true ∧
    (chatCreateAddressBookBranch { env with hasAddressBook := false } u).1.transactionData
      = some (TransactionData.createBook (env.createBookTx u)) :=
  ⟨rfl, rfl, rfl, rfl⟩

/-- Claim C9: a successful `/contacts/save` repoints the user's mapping
to a blob holding exactly the previously saved records plus the new one,
in order and without deduplication, so a subsequent listing returns all
of them.  `enc`/`dec` are the encryption collaborator with its round-trip
contract. -/
theorem save_contact_appends {β : Type} (enc : List ContactRecord → β)
    (dec : β → List ContactRecord) (hrt : ∀ l, dec (enc l) = l) (st : VaultState β)
    (u : String) (r : ContactRecord) (hn : r.name ≠ "") (ha : r.address ≠ "") :
    ∃ st' bid, (save_contact enc dec st u r).result = Except.ok (st', bid) ∧
      list_contacts dec st' u = list_contacts dec st u ++ [r] := by
  have hcond : ¬(r.name = "" ∨ r.address = "") := by
    rintro (h | h)
    · exact hn h
    · exact ha h
  cases hst : st.storage u with
  | none =>
      refine ⟨{ storage := fun x => if x = u then some st.blobs.length else st.storage x
                blobs := st.blobs ++ [enc [r]] }, st.blobs.length, ?_, ?_⟩
      · unfold save_contact saveContactInner
        rw [if_neg hcond, hst]
      · unfold list_contacts
        rw [hst]
        simp [getElem?_append_len, hrt]
  | some blobId =>
      refine ⟨{ storage := fun x => if x = u then some st.blobs.length else st.storage x
                blobs := st.blobs ++
                  [enc ((match st.blobs[blobId]? with | some b => dec b | none => []) ++ [r])] },
              st.blobs.length, ?_, ?_⟩
      · unfold save_contact saveContactInner
        rw [if_neg hcond, hst]
      · unfold list_contacts
        rw [hst]
        simp [getElem?_append_len, hrt]

/-- Witness for claim C9: saving two contacts in sequence into an empty
vault (with identity encryption) and then listing returns both records in
order. -/
theorem save_contact_appends_witness :
    ∃ st' bid, (save_contact (β := List ContactRecord) id id vaultEmpty ("0xme")
        { name := ("alice"), address := ("0xa1"), notes := "" }).result =
          Except.ok (st', bid) ∧
      list_contacts id st' ("0xme") =
        list_contacts id vaultEmpty ("0xme") ++
          [{ name := ("alice"), address := ("0xa1"), notes := "" }] :=
  save_contact_appends id id (fun _ => rfl) vaultEmpty ("0xme")
    { name := ("alice"), address := ("0xa1"), notes := "" } (by decide) (by decide)

/-- Claim C6: an `/execute` request without a private key whose action is
one of the three supported ones, whose required fields are present, and
whose transaction build succeeds, returns `success=true`,
`effects.status = "ready_for_signing"` and `effects.transaction_bytes`
equal to the hex encoding of the built bytes; its only external call is
the build, so nothing touches the wallet signer. -/
theorem execute_client_signing_path (env : ExecEnv) (req : ExecuteTxRequest)
    (bs : List Nat) (hpk : pyTruthy req.privateKey = false)
    (hbr :
      (req.action = some ("stake_token") ∧ pyTruthy req.amount = true ∧
        env.buildStakeTx req.userAddress (req.amount.getD "")
          (req.token.getD TokenType.SUI) = Except.ok bs) ∨
      (req.action = some ("unstake_token") ∧ pyTruthy req.amount = true ∧
        env.buildUnstakeTx req.userAddress (req.amount.getD "")
          (req.token.getD TokenType.SUI) = Except.ok bs) ∨
      (req.action = some ("transfer_token") ∧ pyTruthy req.recipient = true ∧
        pyTruthy req.amount = true ∧
        env.buildTransferTx req.userAddress (req.recipient.getD "") (req.amount.getD "")
          (req.token.getD TokenType.SUI) = Except.ok bs)) :
    (∃ res : TransactionResult,
      (execute_transaction env req).1 = Except.ok res ∧ res.success = true ∧
      ∃ eff : TxEffects, res.effects = some eff ∧
        eff.status = ("ready_for_signing") ∧ eff.transactionBytes = bytesHex bs) ∧
    ((execute_transaction env req).2.all fun c => !c.isWalletCall) = true := by
  rcases hbr with ⟨ha, ham, hb⟩ | ⟨ha, ham, hb⟩ | ⟨ha, hr, ham, hb⟩
  · simp only [execute_transaction, ha, ham, hpk, hb]
    exact ⟨⟨_, rfl, rfl, _, rfl, rfl, rfl⟩, rfl⟩
  · simp only [execute_transaction, ha, ham, hpk, hb]
    exact ⟨⟨_, rfl, rfl, _, rfl, rfl, rfl⟩, rfl⟩
  · simp only [execute_transaction, ha, hr, ham, hpk, hb]
    exact ⟨⟨_, rfl, rfl, _, rfl, rfl, rfl⟩, rfl⟩

/-- Witness for claim C6: a keyless stake request against deterministic
collaborators yields `ready_for_signing` with the hex of the built bytes
and no wallet call. -/
theorem execute_client_signing_path_witness :
    (∃ res : TransactionResult,
      (execute_transaction sampleExecEnv clientStakeReq).1 = Except.ok res ∧
      res.success = true ∧
      ∃ eff : TxEffects, res.effects = some eff ∧
        eff.status = ("ready_for_signing") ∧
        eff.transactionBytes = bytesHex [171, 205]) ∧
    ((execute_transaction sampleExecEnv clientStakeReq).2.all fun c => !c.isWalletCall)
      = true :=
  execute_client_signing_path sampleExecEnv clientStakeReq [171, 205] rfl
    (Or.inl ⟨rfl, rfl, rfl⟩)

/-- Claim C7: an `/execute` request with a missing amount, a transfer
with a missing recipient, or an unsupported action, is rejected with HTTP
400 before any external call is issued. -/
theorem execute_validation_before_gateway (env : ExecEnv) (req : ExecuteTxRequest)
    (h :
      ((req.action = some ("stake_token") ∨ req.action = some ("unstake_token")) ∧
        pyTruthy req.amount = false) ∨
      (req.action = some ("transfer_token") ∧
        (pyTruthy req.recipient = false ∨
          (pyTruthy req.recipient = true ∧ pyTruthy req.amount = false))) ∨
      (req.action ≠ some ("stake_token") ∧ req.action ≠ some ("unstake_token") ∧
        req.action ≠ some ("transfer_token"))) :
    (execute_transaction env req).1 = Except.error 400 ∧
    (execute_transaction env req).2 = [] := by
  rcases h with ⟨ha | ha, ham⟩ | ⟨ha, hr | ⟨hr, ham⟩⟩ | ⟨h1, h2, h3⟩
  · simp [execute_transaction, ha, ham]
  · simp [execute_transaction, ha, ham]
  · simp [execute_transaction, ha, hr]
  · simp [execute_transaction, ha, hr, ham]
  · simp [execute_transaction, if_neg h1, if_neg h2, if_neg h3]

/-- Witness for claim C7: a transfer request without a recipient is
rejected with 400 and an empty call trace. -/
theorem execute_validation_before_gateway_witness :
    (execute_transaction sampleExecEnv missingRecipientReq).1 = Except.error 400 ∧
    (execute_transaction sampleExecEnv missingRecipientReq).2 = [] :=
  execute_validation_before_gateway sampleExecEnv missingRecipientReq
    (Or.inr (Or.inl ⟨rfl, Or.inl rfl⟩))

/-- Claim C10: in the server-signed stake/unstake paths the sender handed
to the gateway build is the wallet's derived address
(`wallet.get_address()`), while in the client-signing paths it is
`request.user_address`. -/
theorem execute_sender_selection (env : ExecEnv) (req : ExecuteTxRequest) (k : String) :
    (req.privateKey = some k → pyTruthy (some k) = true → env.walletCtorOk k = true →
      pyTruthy req.amount = true →
      ((req.action = some ("stake_token") →
        ∃ rest, (execute_transaction env req).2 =
          ExtCall.walletCtor k ::
            ExtCall.buildStake (env.walletAddress k) (req.amount.getD "")
              (req.token.getD TokenType.SUI) :: rest) ∧
       (req.action = some ("unstake_token") →
        ∃ rest, (execute_transaction env req).2 =
          ExtCall.walletCtor k ::
            ExtCall.buildUnstake (env.walletAddress k) (req.amount.getD "")
              (req.token.getD TokenType.SUI) :: rest))) ∧
    (pyTruthy req.privateKey = false → pyTruthy req.amount = true →
      ((req.action = some ("stake_token") →
        ∃ rest, (execute_transaction env req).2 =
          ExtCall.buildStake req.userAddress (req.amount.getD "")
            (req.token.getD TokenType.SUI) :: rest) ∧
       (req.action = some ("unstake_token") →
        ∃ rest, (execute_transaction env req).2 =
          ExtCall.buildUnstake req.userAddress (req.amount.getD "")
            (req.token.getD TokenType.SUI) :: rest))) := by
  constructor
  · intro hk hkt hok ham
    constructor
    · intro ha
      simp only [execute_transaction, ha, ham, hk, hkt, hok]
      cases hb : env.buildStakeTx (env.walletAddress k) (req.amount.getD "")
          (req.token.getD TokenType.SUI) with
      | error e => exact ⟨[], by simp [hb, hok]⟩
      | ok bs => exact ⟨[ExtCall.walletExec bs], by simp [hb, hok]⟩
    · intro ha
      simp only [execute_transaction, ha, ham, hk, hkt, hok]
      cases hb : env.buildUnstakeTx (env.walletAddress k) (req.amount.getD "")
          (req.token.getD TokenType.SUI) with
      | error e => exact ⟨[], by simp [hb, hok]⟩
      | ok bs => exact ⟨[ExtCall.walletExec bs], by simp [hb, hok]⟩
  · intro hpk ham
    constructor
    · intro ha
      simp only [execute_transaction, ha, ham, hpk]
      cases hb : env.buildStakeTx req.userAddress (req.amount.getD "")
          (req.token.getD TokenType.SUI) with
      | error e => exact ⟨[], by simp [hb]⟩
      | ok bs => exact ⟨[], by simp [hb]⟩
    · intro ha
      simp only [execute_transaction, ha, ham, hpk]
      cases hb : env.buildUnstakeTx req.userAddress (req.amount.getD "")
          (req.token.getD TokenType.SUI) with
      | error e => exact ⟨[], by simp [hb]⟩
      | ok bs => exact ⟨[], by simp [hb]⟩

/-- Witness for claim C10: with a private key the stake build is called
with the wallet-derived address; without one it is called with
`request.user_address`. -/
theorem execute_sender_selection_witness :
    (∃ rest, (execute_transaction sampleExecEnv serverStakeReq).2 =
      ExtCall.walletCtor ("key1") ::
        ExtCall.buildStake (sampleExecEnv.walletAddress ("key1"))
          (serverStakeReq.amount.getD "")
          (serverStakeReq.token.getD TokenType.SUI) :: rest) ∧
    (∃ rest, (execute_transaction sampleExecEnv clientStakeReq).2 =
      ExtCall.buildStake (clientStakeReq.userAddress)
        (clientStakeReq.amount.getD "")
        (clientStakeReq.token.getD TokenType.SUI) :: rest) :=
  ⟨((execute_sender_selection sampleExecEnv serverStakeReq ("key1")).1
      rfl rfl rfl rfl).1 rfl,
   ((execute_sender_selection sampleExecEnv clientStakeReq ("key1")).2
      rfl rfl).1 rfl⟩

end ChatRouter
